import Mathlib

/-!
Shallow embedding of `src/aap_eda/services/activation/engine/podman.py`, the
Podman container-engine adapter of eda-server.

The adapter's external collaborators (the podman client, the log handler /
sink, the auth file on disk) are modelled as an explicit `World` state that is
threaded through every operation.  Every call into the engine API appends an
`Event` to a trace and consumes one entry from a fault-injection queue, so
that both the happy paths and the error paths of the Python code can be
exercised.  Exceptions are modelled with `Except`; since a Python exception
does not roll back side effects, every operation returns the final `World`
alongside its `Except` result.

Timestamps are modelled at second resolution (`Nat`), matching the code's
`int(log_read_at.timestamp()) + 1` truncation.  A log line fetched with
`timestamps=True` is `"<timestamp> <payload>"`; after `strip()` a line with an
empty payload is just `"<timestamp>"`, so `log.split(" ", 1)` yields one part
for an empty payload and two parts otherwise.  We model each raw line as a
structured `LogEntry` (timestamp, payload); a `msg = ""` entry corresponds to
a one-part split.
-/

namespace Podman

/-- Engine-level (podman client library) errors.  In the client library,
`NotFound` and `ImageNotFound` are subclasses of `APIError`, while
`ContainerError` is not an `APIError`. -/
inductive PodmanError where
  | notFound
  | imageNotFound
  | apiError (msg : String)
  | containerError (msg : String)
deriving DecidableEq

/-- Which engine errors an `except APIError` clause catches. -/
def PodmanError.isAPIError : PodmanError → Bool
  | .notFound => true
  | .imageNotFound => true
  | .apiError _ => true
  | .containerError _ => false

/-- Embeds `str(e)` for an engine error. -/
def PodmanError.str : PodmanError → String
  | .notFound => "not found"
  | .imageNotFound => "image not found"
  | .apiError m => m
  | .containerError m => m

/-- Modelled from the spec: the application exception taxonomy of section 7
(the `exceptions` module is not under `src/`).  `podmanError` stands for an
engine error that escapes the adapter uncaught. -/
inductive AppError where
  | containerStartError (msg : String)
  | containerImagePullError (msg : String)
  | containerCleanupError (msg : String)
  | containerUpdateLogsError (msg : String)
  | containerNotFoundError (msg : String)
  | podmanError (e : PodmanError)
deriving DecidableEq

/-- Modelled from the spec: the activation status enum (RUNNING, COMPLETED,
FAILED, ERROR) of section 3 (`aap_eda.core.enums` is not under `src/`). -/
inductive ActivationStatus where
  | running
  | completed
  | failed
  | error
deriving DecidableEq

/-- Modelled from the spec: `ContainerStatus` = {status, message}
(section 3; the `common` module is not under `src/`). -/
structure ContainerStatus where
  status : ActivationStatus
  message : String
deriving DecidableEq

/-- Modelled from the spec: the pod-completed message template of the
`messages` module (not under `src/`); it references the pod id. -/
def POD_COMPLETED (pod_id : String) : String :=
  "Pod " ++ pod_id ++ " has completed"

/-- Modelled from the spec: the generic failure message template of the
`messages` module (not under `src/`); per section 8 it contains the
container id and the exit code. -/
def POD_GENERIC_FAIL (pod_id : String) (exit_code : Int) : String :=
  "Pod " ++ pod_id ++ " failed with exit code " ++ toString exit_code

/-- Modelled from the spec: the pod-running message template. -/
def POD_RUNNING (pod_id : String) : String :=
  "Pod " ++ pod_id ++ " is running"

/-- Modelled from the spec: the pod-not-running message template. -/
def POD_NOT_RUNNING (pod_id : String) : String :=
  "Pod " ++ pod_id ++ " is not running"

/-- Modelled from the spec: the wrong-state message template; it names the
engine state. -/
def POD_WRONG_STATE (pod_id pod_state : String) : String :=
  "Pod " ++ pod_id ++ " is in wrong state " ++ pod_state

/-- Modelled from the spec: the unexpected-state message template; per
section 8 it names the unknown state. -/
def POD_UNEXPECTED (pod_id pod_state : String) : String :=
  "Pod " ++ pod_id ++ " is in unexpected state " ++ pod_state

/-- Modelled from the spec: the image-pull-error message template used when a
pull returns an image record with no resolvable id. -/
def IMAGE_PULL_ERROR (image_url : String) : String :=
  "Image " ++ image_url ++ " pull failed, no image id returned"

/-- One engine log line: second-resolution timestamp plus payload
(`msg = ""` models a line whose payload is empty, i.e. a one-part
`split(" ", 1)` after `strip()`). -/
structure LogEntry where
  ts : Nat
  msg : String
deriving DecidableEq

/-- Engine-side data of one container: `container.status`,
`attrs["State"]["ExitCode"]`, `attrs["State"]["Error"]` and its log. -/
structure ContainerData where
  status : String
  exitCode : Int
  errorMsg : String
  logs : List LogEntry
deriving DecidableEq

/-- The image record returned by `images.pull`; `id = ""` models a record
with no resolvable id (`not image.id`). -/
structure Image where
  id : String
deriving DecidableEq

/-- Engine-side state: running containers, locally present images
(for `images.get`), registry images reachable by `images.pull`
(url to image id), and a counter generating fresh container ids. -/
structure EngineState where
  containers : List (String × ContainerData)
  localImages : List String
  registryImages : List (String × String)
  nextId : Nat
deriving DecidableEq

/-- Observable side effects: engine API calls and log-sink operations, in
program order. -/
inductive Event where
  | engineExists (cid : String)
  | engineGet (cid : String)
  | engineStop (cid : String)
  | engineRemove (cid : String)
  | engineLogs (cid : String)
  | engineLogin (registry : String)
  | engineImageGet (url : String)
  | enginePull (url : String)
  | engineRun (image : String)
  | logWrite (lines : String) (flush : Bool) (timestamp : Bool)
  | logFlush
deriving DecidableEq

/-- One `{"auth": base64(user:secret)}` record of the auth file. -/
structure AuthEntry where
  auth : String
deriving DecidableEq

/-- Modelled from the spec: a registry credential (username + secret),
section 3 (the `common` module is not under `src/`). -/
structure Credential where
  username : String
  secret : String
deriving DecidableEq

/-- A value of the heterogeneous `pod_args` dict built by `_load_pod_args`. -/
inductive PodValue where
  | str (s : String)
  | portsMap (m : List (String × Nat))
  | mountsVal (m : List String)
  | envVal (e : List (String × String))
deriving DecidableEq

/-- Modelled from the spec: `ContainerRequest` (section 3; the `common`
module is not under `src/`): image reference, command/args
(`cmdline.command_and_args()`), optional credential, pull policy, port
mappings, memory limit (`""` = unset, matching Python falsiness), mounts,
environment variables, extra engine args, and a display name. -/
structure ContainerRequest where
  name : String
  image_url : String
  command : List String
  credential : Option Credential
  ports : List (Nat × Nat)
  mem_limit : String
  mounts : List String
  env_vars : List (String × String)
  extra_args : List (String × PodValue)
  pull_policy : String
deriving DecidableEq

/-- The whole state threaded through the adapter: the engine, the log
handler's persisted watermark (`log_read_at`, in seconds), the cached
`self.auth_file` path, the runtime environment (`XDG_RUNTIME_DIR` and
whether the auth directory exists), the on-disk auth file content
(`none` = file absent), a fault-injection queue consumed by each engine
call, and the event trace. -/
structure World where
  engine : EngineState
  logReadAt : Option Nat
  authFile : Option String
  xdgRuntimeDir : String
  authDirExists : Bool
  authFileData : Option (List (String × AuthEntry))
  faults : List (Option PodmanError)
  events : List Event
deriving DecidableEq

/-! ### Association-list helpers (Python `dict` with insertion order) -/

/-- Lookup in an association list with string keys. -/
def lookupKey {β : Type} (k : String) : List (String × β) → Option β
  | [] => none
  | (k', v) :: rest => if k' = k then some v else lookupKey k rest

/-- Python `d[k] = v`: update in place if the key exists, append otherwise. -/
def dictInsert {β : Type} (k : String) (v : β) : List (String × β) → List (String × β)
  | [] => [(k, v)]
  | (k', v') :: rest =>
      if k' = k then (k, v) :: rest else (k', v') :: dictInsert k v rest

/-- Remove the entry (or entries) with the given key. -/
def eraseKey {β : Type} (k : String) : List (String × β) → List (String × β)
  | [] => []
  | (k', v') :: rest =>
      if k' = k then eraseKey k rest else (k', v') :: eraseKey k rest

/-- Set the status of the container with the given id. -/
def setStatus (cid st : String) :
    List (String × ContainerData) → List (String × ContainerData)
  | [] => []
  | (k, c) :: rest =>
      if k = cid then (k, { c with status := st }) :: rest
      else (k, c) :: setStatus cid st rest

/-! ### base64 (embedding `base64.b64encode` on ASCII input) -/

/-- The base64 alphabet character of a sextet. -/
def b64Char (n : Nat) : Char :=
  "ABCDEFGHIJKLMNOPQRSTUVWXYZabcdefghijklmnopqrstuvwxyz0123456789+/".toList.getD n 'A'

/-- Standard base64 of a byte list, with padding. -/
def b64encode : List Nat → String
  | [] => ""
  | [a] => String.mk [b64Char (a / 4), b64Char (a % 4 * 16), '=', '=']
  | [a, b] =>
      String.mk [b64Char (a / 4), b64Char (a % 4 * 16 + b / 16),
                 b64Char (b % 16 * 4), '=']
  | a :: b :: c :: rest =>
      String.mk [b64Char (a / 4), b64Char (a % 4 * 16 + b / 16),
                 b64Char (b % 16 * 4 + c / 64), b64Char (c % 64)]
        ++ b64encode rest

/-! ### Engine API primitives

Each primitive records its `Event`, then consumes the head of the fault
queue: an injected fault makes the call raise, otherwise the call behaves
as the (sequential, race-free) engine does. -/

/-- Append an event to the trace. -/
def World.record (w : World) (e : Event) : World :=
  { w with events := w.events ++ [e] }

/-- Consume the head of the fault queue. -/
def World.popFault (w : World) : Option PodmanError × World :=
  match w.faults with
  | [] => (none, w)
  | f :: rest => (f, { w with faults := rest })

/-- Embeds `client.containers.exists(cid)`; never raises `NotFound` itself
(it returns `False` instead). -/
def engExists (cid : String) (w : World) : Except PodmanError Bool × World :=
  let w := w.record (.engineExists cid)
  match w.popFault with
  | (some e, w) => (.error e, w)
  | (none, w) => (.ok (lookupKey cid w.engine.containers).isSome, w)

/-- Embeds `client.containers.get(cid)`. -/
def engGet (cid : String) (w : World) : Except PodmanError ContainerData × World :=
  let w := w.record (.engineGet cid)
  match w.popFault with
  | (some e, w) => (.error e, w)
  | (none, w) =>
      match lookupKey cid w.engine.containers with
      | some c => (.ok c, w)
      | none => (.error .notFound, w)

/-- Embeds `container.stop(ignore=True)`: `ignore=True` makes the client swallow
`NotFound` raised by the stop itself. -/
def engStop (cid : String) (w : World) : Except PodmanError Unit × World :=
  let w := w.record (.engineStop cid)
  match w.popFault with
  | (some .notFound, w) => (.ok (), w)
  | (some e, w) => (.error e, w)
  | (none, w) =>
      (.ok (), { w with engine :=
        { w.engine with containers := setStatus cid "exited" w.engine.containers } })

/-- Embeds `container.remove(force=True, v=True)` (anonymous volumes are not
modelled). -/
def engRemove (cid : String) (w : World) : Except PodmanError Unit × World :=
  let w := w.record (.engineRemove cid)
  match w.popFault with
  | (some e, w) => (.error e, w)
  | (none, w) =>
      if (lookupKey cid w.engine.containers).isSome then
        (.ok (), { w with engine :=
          { w.engine with containers := eraseKey cid w.engine.containers } })
      else (.error .notFound, w)

/-- Whether a log line passes the (inclusive, second-resolution) `since`
filter of the engine's log query. -/
def sinceOk (since : Option Nat) (ts : Nat) : Bool :=
  match since with
  | none => true
  | some s => decide (s ≤ ts)

/-- Embeds `container.logs(timestamps=True, stderr=True, since=...)`. -/
def engLogs (cid : String) (since : Option Nat) (w : World) :
    Except PodmanError (List LogEntry) × World :=
  let w := w.record (.engineLogs cid)
  match w.popFault with
  | (some e, w) => (.error e, w)
  | (none, w) =>
      match lookupKey cid w.engine.containers with
      | none => (.error .notFound, w)
      | some c => (.ok (c.logs.filter (fun e => sinceOk since e.ts)), w)

/-- Embeds `client.images.get(url)` used by `_image_exists`. -/
def engImageGet (url : String) (w : World) : Except PodmanError Unit × World :=
  let w := w.record (.engineImageGet url)
  match w.popFault with
  | (some e, w) => (.error e, w)
  | (none, w) =>
      if url ∈ w.engine.localImages then (.ok (), w)
      else (.error .imageNotFound, w)

/-- Embeds `client.images.pull(url, ...)`: resolves the registry image, makes it
locally present, and returns its image record (whose id may be empty). -/
def engPull (url : String) (w : World) : Except PodmanError Image × World :=
  let w := w.record (.enginePull url)
  match w.popFault with
  | (some e, w) => (.error e, w)
  | (none, w) =>
      match lookupKey url w.engine.registryImages with
      | none => (.error .imageNotFound, w)
      | some iid =>
          (.ok ⟨iid⟩, { w with engine :=
            { w.engine with localImages := url :: w.engine.localImages } })

/-- Embeds `client.login(username=..., password=..., registry=...)`. -/
def engLogin (registry _username _secret : String) (w : World) :
    Except PodmanError Unit × World :=
  let w := w.record (.engineLogin registry)
  match w.popFault with
  | (some e, w) => (.error e, w)
  | (none, w) => (.ok (), w)

/-- Embeds `client.containers.run(image=..., command=..., stdout=True, stderr=True,
remove=True, detach=True, **pod_args)`: creates a fresh container and returns
its engine-assigned id (modelled as a counter-generated, non-empty string). -/
def engRun (image : String) (_command : List String)
    (_pod_args : List (String × PodValue)) (w : World) :
    Except PodmanError String × World :=
  let w := w.record (.engineRun image)
  match w.popFault with
  | (some e, w) => (.error e, w)
  | (none, w) =>
      let cid := "c" ++ toString w.engine.nextId
      (.ok cid, { w with engine :=
        { w.engine with
            containers := w.engine.containers ++ [(cid, ⟨"running", 0, "", []⟩)],
            nextId := w.engine.nextId + 1 } })

/-! ### Log-handler primitives (collaborator interface of spec section 6) -/

/-- Embeds `log_handler.write(lines, flush, timestamp)`. -/
def handlerWrite (lines : String) (flush timestamp : Bool) (w : World) : World :=
  w.record (.logWrite lines flush timestamp)

/-- Embeds `log_handler.flush()`. -/
def handlerFlush (w : World) : World :=
  w.record .logFlush

/-- Embeds `log_handler.set_log_read_at(dt)`. -/
def setLogReadAt (t : Nat) (w : World) : World :=
  { w with logReadAt := some t }

/-! ### The adapter operations (class `Engine` of `podman.py`) -/

/-- Embeds `except APIError: raise mk(str(e))` — wraps API errors (including the
`NotFound` and `ImageNotFound` subclasses) and lets other exceptions
propagate. -/
def wrapAPI (mk : String → AppError) (e : PodmanError) : AppError :=
  if e.isAPIError then mk e.str else .podmanError e

/-- Embeds `request.image_url.split("/")[0]`: the registry host. -/
def registryOf (image_url : String) : String :=
  (image_url.splitOn "/").headD ""

/-- Embeds `Engine.get_status` (podman.py lines 164-238). -/
def get_status (container_id : String) (w : World) :
    Except AppError ContainerStatus × World :=
  match engExists container_id w with
  | (.error e, w) => (.error (.podmanError e), w)
  | (.ok false, w) =>
      (.error (.containerNotFoundError
        ("Container id " ++ container_id ++ " not found")), w)
  | (.ok true, w) =>
      match engGet container_id w with
      | (.error e, w) => (.error (.podmanError e), w)
      | (.ok c, w) =>
          let error_msg := c.errorMsg
          if c.status ∈ ["exited", "stopped"] then
            let exit_code := c.exitCode
            if exit_code = 0 then
              (.ok ⟨.completed, POD_COMPLETED container_id⟩, w)
            else
              let error_msg :=
                if error_msg = "" then POD_GENERIC_FAIL container_id exit_code
                else error_msg
              (.ok ⟨.failed, error_msg⟩, w)
          else if c.status ∈ ["running", "stopping"] then
            (.ok ⟨.running, POD_RUNNING container_id⟩, w)
          else if c.status = "created" then
            let error_msg :=
              if error_msg = "" then POD_NOT_RUNNING container_id else error_msg
            (.ok ⟨.failed, error_msg⟩, w)
          else if c.status ∈
              ["paused", "restarting", "removing", "dead", "configured",
               "unknown"] then
            (.ok ⟨.failed, POD_WRONG_STATE container_id c.status⟩, w)
          else
            (.ok ⟨.error, POD_UNEXPECTED container_id c.status⟩, w)

/-- The per-line loop body of `update_logs`: forward the payload of each
two-part line (`flush=False, timestamp=False`); one-part lines (empty
payload) are not forwarded. -/
def forwardLines (entries : List LogEntry) (w : World) : World :=
  entries.foldl
    (fun w e => if e.msg = "" then w else handlerWrite e.msg false false w) w

/-- Embeds `Engine.update_logs` (podman.py lines 240-273). -/
def update_logs (container_id : String) (w : World) :
    Except AppError Unit × World :=
  match engExists container_id w with
  | (.error e, w) => (.error (wrapAPI .containerUpdateLogsError e), w)
  | (.ok false, w) =>
      let w := handlerWrite ("Container " ++ container_id ++ " not found.")
        true true w
      (.ok (), w)
  | (.ok true, w) =>
      let since : Option Nat :=
        match w.logReadAt with
        | none => none
        | some t => some (t + 1)
      match engGet container_id w with
      | (.error e, w) => (.error (wrapAPI .containerUpdateLogsError e), w)
      | (.ok _, w) =>
          match engLogs container_id since w with
          | (.error e, w) => (.error (wrapAPI .containerUpdateLogsError e), w)
          | (.ok entries, w) =>
              let w := forwardLines entries w
              match entries.getLast? with
              | none => (.ok (), w)
              | some last =>
                  let w := handlerFlush w
                  let w := setLogReadAt last.ts w
                  (.ok (), w)

/-- Embeds `Engine._cleanup` (podman.py lines 275-286): force-remove, swallowing
`NotFound`, wrapping other API errors into `ContainerCleanupError`. -/
def cleanupInternal (container_id : String) (w : World) :
    Except AppError Unit × World :=
  match engExists container_id w with
  | (.error e, w) => (.error (wrapAPI .containerCleanupError e), w)
  | (.ok false, w) => (.ok (), w)
  | (.ok true, w) =>
      match engGet container_id w with
      | (.error e, w) => (.error (wrapAPI .containerCleanupError e), w)
      | (.ok _, w) =>
          match engRemove container_id w with
          | (.error .notFound, w) => (.ok (), w)
          | (.error e, w) => (.error (wrapAPI .containerCleanupError e), w)
          | (.ok _, w) => (.ok (), w)

/-- Embeds `Engine.cleanup` (podman.py lines 80-101).  The inner `except NotFound`
covers the stop/log-update/remove/write block; the outer `except APIError`
wraps into `ContainerCleanupError`; application errors raised by
`update_logs` / `_cleanup` match neither clause and propagate. -/
def cleanup (container_id : String) (w : World) :
    Except AppError Unit × World :=
  match engExists container_id w with
  | (.error e, w) => (.error (wrapAPI .containerCleanupError e), w)
  | (.ok false, w) => (.ok (), w)
  | (.ok true, w) =>
      match engGet container_id w with
      | (.error e, w) => (.error (wrapAPI .containerCleanupError e), w)
      | (.ok _, w) =>
          match engStop container_id w with
          | (.error .notFound, w) =>
              let w := handlerWrite
                ("Container " ++ container_id ++ " not found.") true true w
              (.ok (), w)
          | (.error e, w) => (.error (wrapAPI .containerCleanupError e), w)
          | (.ok _, w) =>
              match update_logs container_id w with
              | (.error e, w) => (.error e, w)
              | (.ok _, w) =>
                  match cleanupInternal container_id w with
                  | (.error e, w) => (.error e, w)
                  | (.ok _, w) =>
                      let w := handlerWrite
                        ("Container " ++ container_id ++ " is cleaned up.")
                        true true w
                      (.ok (), w)

/-- Embeds `Engine._image_exists` (podman.py lines 103-108): a lookup, catching only
`ImageNotFound`. -/
def image_exists (image_url : String) (w : World) :
    Except PodmanError Bool × World :=
  match engImageGet image_url w with
  | (.error .imageNotFound, w) => (.ok false, w)
  | (.error e, w) => (.error e, w)
  | (.ok _, w) => (.ok true, w)

/-- Embeds `Engine._login` (podman.py lines 295-313): no-op without a credential;
`APIError` becomes `ContainerStartError(str(e))` with no log-sink write. -/
def login (request : ContainerRequest) (w : World) :
    Except AppError Unit × World :=
  match request.credential with
  | none => (.ok (), w)
  | some credential =>
      let registry := registryOf request.image_url
      match engLogin registry credential.username credential.secret w with
      | (.error e, w) => (.error (wrapAPI .containerStartError e), w)
      | (.ok _, w) => (.ok (), w)

/-- Embeds `Engine._create_auth_key` (podman.py lines 335-338). -/
def create_auth_key (credential : Credential) : AuthEntry :=
  ⟨b64encode
    ((credential.username ++ ":" ++ credential.secret).toList.map Char.toNat)⟩

/-- Embeds `Engine._write_auth_json` (podman.py lines 315-333).  The call site
(`_pull_image`) only invokes it when a credential is present, so the
credential is taken as an argument.  Reading a missing file yields an empty
dict (the code's `auth_dict = {}` / missing `"auths"` key cases). -/
def write_auth_json (credential : Credential) (image_url : String)
    (w : World) : World :=
  match w.authFile with
  | none => w
  | some _ =>
      let auth_dict : List (String × AuthEntry) := w.authFileData.getD []
      let registry := registryOf image_url
      let auth_dict := dictInsert registry (create_auth_key credential) auth_dict
      { w with authFileData := some auth_dict }

/-- Embeds `Engine._set_auth_json_file` (podman.py lines 340-351). -/
def set_auth_json_file (w : World) : World :=
  let auth_file := w.xdgRuntimeDir ++ "/containers/auth.json"
  if w.authDirExists then { w with authFile := some auth_file }
  else { w with authFile := none }

/-- Embeds `Engine._pull_image` (podman.py lines 353-385). -/
def pull_image (request : ContainerRequest) (w : World) :
    Except AppError Image × World :=
  let w := handlerWrite ("Pulling image " ++ request.image_url) true true w
  let w :=
    match request.credential with
    | none => w
    | some credential => write_auth_json credential request.image_url w
  match engPull request.image_url w with
  | (.error .imageNotFound, w) =>
      let msg := "Image " ++ request.image_url ++ " not found"
      let w := handlerWrite msg true true w
      (.error (.containerImagePullError msg), w)
  | (.error e, w) => (.error (wrapAPI .containerStartError e), w)
  | (.ok image, w) =>
      if image.id = "" then
        let msg := IMAGE_PULL_ERROR request.image_url
        let w := handlerWrite msg true true w
        (.error (.containerImagePullError msg), w)
      else (.ok image, w)

/-- Embeds `Engine._get_ports` (podman.py lines 288-293): the first component of
every pair is discarded (`for _, port in found_ports`). -/
def get_ports (found_ports : List (Nat × Nat)) : List (String × Nat) :=
  found_ports.foldl
    (fun ports p => dictInsert (toString p.2 ++ "/tcp") p.2 ports) []

/-- Embeds `Engine._load_pod_args` (podman.py lines 387-409). -/
def load_pod_args (request : ContainerRequest) : List (String × PodValue) :=
  let pod_args : List (String × PodValue) := [("name", .str request.name)]
  let pod_args :=
    if request.ports = [] then pod_args
    else dictInsert "ports" (.portsMap (get_ports request.ports)) pod_args
  let pod_args :=
    if request.mem_limit = "" then pod_args
    else dictInsert "mem_limit" (.str request.mem_limit) pod_args
  let pod_args :=
    if request.mounts = [] then pod_args
    else dictInsert "mounts" (.mountsVal request.mounts) pod_args
  let pod_args :=
    if request.env_vars = [] then pod_args
    else dictInsert "environment" (.envVal request.env_vars) pod_args
  request.extra_args.foldl (fun d kv => dictInsert kv.1 kv.2 d) pod_args

/-- The `except (ContainerError, ImageNotFound, APIError)` handler of
`start`: every engine error kind is caught (the `NotFound` subclass of
`APIError` included); a descriptive message is logged to the sink and a
`ContainerStartError` is raised. -/
def startWrap (e : PodmanError) (w : World) : Except AppError String × World :=
  let error_message := "Container Start Error: " ++ e.str
  let w := handlerWrite error_message true true w
  (.error (.containerStartError error_message), w)

/-- Embeds `Engine.start` (podman.py lines 110-162). -/
def start (request : ContainerRequest) (w : World) :
    Except AppError String × World :=
  if request.image_url = "" then
    (.error (.containerStartError "Missing image url"), w)
  else
    let w := set_auth_json_file w
    match login request w with
    | (.error (.podmanError e), w) => startWrap e w
    | (.error e, w) => (.error e, w)
    | (.ok _, w) =>
        let pullDecision : Except PodmanError Bool × World :=
          if request.pull_policy = "Always" then (.ok true, w)
          else
            match image_exists request.image_url w with
            | (.error e, w) => (.error e, w)
            | (.ok b, w) => (.ok (!b), w)
        match pullDecision with
        | (.error e, w) => startWrap e w
        | (.ok doPull, w) =>
            let pulled : Except AppError Unit × World :=
              if doPull then
                match pull_image request w with
                | (.error e, w) => (.error e, w)
                | (.ok _, w) => (.ok (), w)
              else (.ok (), w)
            match pulled with
            | (.error (.podmanError e), w) => startWrap e w
            | (.error e, w) => (.error e, w)
            | (.ok _, w) =>
                let w := handlerWrite "Starting Container" true true w
                let command := request.command
                let w := handlerWrite ("Container args " ++ toString command)
                  true true w
                let pod_args := load_pod_args request
                match engRun request.image_url command pod_args w with
                | (.error e, w) => startWrap e w
                | (.ok container_id, w) =>
                    let w := handlerWrite
                      ("Container " ++ container_id ++ " is started.") true true w
                    (.ok container_id, w)

/-! ### Association-list lemmas -/

theorem lookupKey_dictInsert_self {β : Type} (k : String) (v : β)
    (l : List (String × β)) : lookupKey k (dictInsert k v l) = some v := by
  induction l with
  | nil => simp [dictInsert, lookupKey]
  | cons kv rest ih =>
      obtain ⟨k', v'⟩ := kv
      by_cases h : k' = k
      · simp [dictInsert, lookupKey, h]
      · simp [dictInsert, lookupKey, h, ih]

theorem lookupKey_dictInsert_ne {β : Type} (k k' : String) (v : β)
    (l : List (String × β)) (h : k' ≠ k) :
    lookupKey k (dictInsert k' v l) = lookupKey k l := by
  induction l with
  | nil => simp [dictInsert, lookupKey, h]
  | cons kv rest ih =>
      obtain ⟨k'', v''⟩ := kv
      by_cases h2 : k'' = k'
      · simp [dictInsert, lookupKey, h2, h]
      · by_cases h3 : k'' = k
        · simp [dictInsert, lookupKey, h2, h3, Ne.symm h]
        · simp [dictInsert, lookupKey, h2, h3, ih]

theorem mem_dictInsert {β : Type} (kv : String × β) (k : String) (v : β)
    (l : List (String × β)) (h : kv ∈ dictInsert k v l) :
    kv = (k, v) ∨ kv ∈ l := by
  induction l with
  | nil => simpa [dictInsert] using h
  | cons kv' rest ih =>
      by_cases h2 : kv'.1 = k
      · obtain ⟨k'', v''⟩ := kv'
        simp only [dictInsert] at h
        rw [if_pos h2] at h
        rcases List.mem_cons.mp h with h3 | h3
        · exact Or.inl h3
        · exact Or.inr (List.mem_cons_of_mem _ h3)
      · obtain ⟨k'', v''⟩ := kv'
        simp only [dictInsert] at h
        rw [if_neg h2] at h
        rcases List.mem_cons.mp h with h3 | h3
        · exact Or.inr (h3 ▸ List.mem_cons_self _ _)
        · rcases ih h3 with h4 | h4
          · exact Or.inl h4
          · exact Or.inr (List.mem_cons_of_mem _ h4)

theorem lookupKey_eraseKey_self {β : Type} (k : String)
    (l : List (String × β)) : lookupKey k (eraseKey k l) = none := by
  induction l with
  | nil => simp [eraseKey, lookupKey]
  | cons kv rest ih =>
      obtain ⟨k', v'⟩ := kv
      by_cases h : k' = k
      · simp [eraseKey, h, ih]
      · simp [eraseKey, lookupKey, h, ih]

theorem lookupKey_setStatus_self (cid st : String)
    (l : List (String × ContainerData)) :
    lookupKey cid (setStatus cid st l) =
      (lookupKey cid l).map (fun c => { c with status := st }) := by
  induction l with
  | nil => simp [setStatus, lookupKey]
  | cons kv rest ih =>
      obtain ⟨k', c'⟩ := kv
      by_cases h : k' = cid
      · simp [setStatus, lookupKey, h]
      · simp [setStatus, lookupKey, h, ih]

theorem lookupKey_foldl_dictInsert {β : Type} (k : String)
    (l : List (String × β)) (acc : List (String × β))
    (h : ∀ kv ∈ l, kv.1 ≠ k) :
    lookupKey k (l.foldl (fun d kv => dictInsert kv.1 kv.2 d) acc) =
      lookupKey k acc := by
  induction l generalizing acc with
  | nil => simp
  | cons kv rest ih =>
      simp only [List.foldl_cons]
      rw [ih _ (fun kv2 h2 => h kv2 (List.mem_cons_of_mem _ h2))]
      exact lookupKey_dictInsert_ne _ _ _ _ (h kv (List.mem_cons_self _ _))

/-! ### Fault-free and fault-injected behavior of the engine primitives -/

theorem engExists_nil (cid : String) (w : World) (h : w.faults = []) :
    engExists cid w =
      (.ok (lookupKey cid w.engine.containers).isSome,
       { w with events := w.events ++ [.engineExists cid] }) := by
  simp [engExists, World.record, World.popFault, h]

theorem engExists_consNone (cid : String) (w : World)
    (rest : List (Option PodmanError)) (h : w.faults = none :: rest) :
    engExists cid w =
      (.ok (lookupKey cid w.engine.containers).isSome,
       { w with events := w.events ++ [.engineExists cid], faults := rest }) := by
  simp [engExists, World.record, World.popFault, h]

theorem engGet_nil (cid : String) (w : World) (c : ContainerData)
    (h : w.faults = []) (hc : lookupKey cid w.engine.containers = some c) :
    engGet cid w =
      (.ok c, { w with events := w.events ++ [.engineGet cid] }) := by
  simp [engGet, World.record, World.popFault, h, hc]

theorem engGet_consNone (cid : String) (w : World) (c : ContainerData)
    (rest : List (Option PodmanError)) (h : w.faults = none :: rest)
    (hc : lookupKey cid w.engine.containers = some c) :
    engGet cid w =
      (.ok c, { w with events := w.events ++ [.engineGet cid],
                       faults := rest }) := by
  simp [engGet, World.record, World.popFault, h, hc]

theorem engStop_nil (cid : String) (w : World) (h : w.faults = []) :
    engStop cid w =
      (.ok (), { w with
        engine := { w.engine with
          containers := setStatus cid "exited" w.engine.containers },
        events := w.events ++ [.engineStop cid] }) := by
  simp [engStop, World.record, World.popFault, h]

theorem engStop_consNone (cid : String) (w : World)
    (rest : List (Option PodmanError)) (h : w.faults = none :: rest) :
    engStop cid w =
      (.ok (), { w with
        engine := { w.engine with
          containers := setStatus cid "exited" w.engine.containers },
        events := w.events ++ [.engineStop cid], faults := rest }) := by
  simp [engStop, World.record, World.popFault, h]

theorem engStop_consNotFound (cid : String) (w : World)
    (rest : List (Option PodmanError))
    (h : w.faults = some .notFound :: rest) :
    engStop cid w =
      (.ok (), { w with events := w.events ++ [.engineStop cid],
                        faults := rest }) := by
  simp [engStop, World.record, World.popFault, h]

theorem engStop_consApiError (cid : String) (w : World) (m : String)
    (rest : List (Option PodmanError))
    (h : w.faults = some (.apiError m) :: rest) :
    engStop cid w =
      (.error (.apiError m),
       { w with events := w.events ++ [.engineStop cid], faults := rest }) := by
  simp [engStop, World.record, World.popFault, h]

theorem engRemove_nil (cid : String) (w : World) (h : w.faults = [])
    (hc : (lookupKey cid w.engine.containers).isSome = true) :
    engRemove cid w =
      (.ok (), { w with
        engine := { w.engine with
          containers := eraseKey cid w.engine.containers },
        events := w.events ++ [.engineRemove cid] }) := by
  simp [engRemove, World.record, World.popFault, h, hc]

theorem engRemove_consSome (cid : String) (w : World) (e : PodmanError)
    (rest : List (Option PodmanError)) (h : w.faults = some e :: rest) :
    engRemove cid w =
      (.error e, { w with events := w.events ++ [.engineRemove cid],
                          faults := rest }) := by
  simp [engRemove, World.record, World.popFault, h]

theorem engLogs_nil (cid : String) (since : Option Nat) (w : World)
    (c : ContainerData) (h : w.faults = [])
    (hc : lookupKey cid w.engine.containers = some c) :
    engLogs cid since w =
      (.ok (c.logs.filter (fun e => sinceOk since e.ts)),
       { w with events := w.events ++ [.engineLogs cid] }) := by
  simp [engLogs, World.record, World.popFault, h, hc]

theorem engLogs_consNone (cid : String) (since : Option Nat) (w : World)
    (c : ContainerData) (rest : List (Option PodmanError))
    (h : w.faults = none :: rest)
    (hc : lookupKey cid w.engine.containers = some c) :
    engLogs cid since w =
      (.ok (c.logs.filter (fun e => sinceOk since e.ts)),
       { w with events := w.events ++ [.engineLogs cid], faults := rest }) := by
  simp [engLogs, World.record, World.popFault, h, hc]

theorem engImageGet_nil (url : String) (w : World) (h : w.faults = []) :
    engImageGet url w =
      ((if url ∈ w.engine.localImages then .ok () else .error .imageNotFound),
       { w with events := w.events ++ [.engineImageGet url] }) := by
  by_cases hm : url ∈ w.engine.localImages <;>
    simp [engImageGet, World.record, World.popFault, h, hm]

theorem engImageGet_consNone (url : String) (w : World)
    (rest : List (Option PodmanError)) (h : w.faults = none :: rest) :
    engImageGet url w =
      ((if url ∈ w.engine.localImages then .ok () else .error .imageNotFound),
       { w with events := w.events ++ [.engineImageGet url],
                faults := rest }) := by
  by_cases hm : url ∈ w.engine.localImages <;>
    simp [engImageGet, World.record, World.popFault, h, hm]

theorem engPull_nil_found (url iid : String) (w : World) (h : w.faults = [])
    (hr : lookupKey url w.engine.registryImages = some iid) :
    engPull url w =
      (.ok ⟨iid⟩, { w with
        engine := { w.engine with localImages := url :: w.engine.localImages },
        events := w.events ++ [.enginePull url] }) := by
  simp [engPull, World.record, World.popFault, h, hr]

theorem engPull_nil_missing (url : String) (w : World) (h : w.faults = [])
    (hr : lookupKey url w.engine.registryImages = none) :
    engPull url w =
      (.error .imageNotFound,
       { w with events := w.events ++ [.enginePull url] }) := by
  simp [engPull, World.record, World.popFault, h, hr]

theorem engPull_consSome (url : String) (w : World) (e : PodmanError)
    (rest : List (Option PodmanError)) (h : w.faults = some e :: rest) :
    engPull url w =
      (.error e, { w with events := w.events ++ [.enginePull url],
                          faults := rest }) := by
  simp [engPull, World.record, World.popFault, h]

theorem engLogin_nil (registry u s : String) (w : World) (h : w.faults = []) :
    engLogin registry u s w =
      (.ok (), { w with events := w.events ++ [.engineLogin registry] }) := by
  simp [engLogin, World.record, World.popFault, h]

theorem engLogin_consSome (registry u s : String) (w : World)
    (e : PodmanError) (rest : List (Option PodmanError))
    (h : w.faults = some e :: rest) :
    engLogin registry u s w =
      (.error e, { w with events := w.events ++ [.engineLogin registry],
                          faults := rest }) := by
  simp [engLogin, World.record, World.popFault, h]

theorem engRun_nil (image : String) (command : List String)
    (pod_args : List (String × PodValue)) (w : World) (h : w.faults = []) :
    engRun image command pod_args w =
      (.ok ("c" ++ toString w.engine.nextId), { w with
        engine := { w.engine with
          containers := w.engine.containers ++
            [("c" ++ toString w.engine.nextId, ⟨"running", 0, "", []⟩)],
          nextId := w.engine.nextId + 1 },
        events := w.events ++ [.engineRun image] }) := by
  simp [engRun, World.record, World.popFault, h]

theorem engRun_consSome (image : String) (command : List String)
    (pod_args : List (String × PodValue)) (w : World) (e : PodmanError)
    (rest : List (Option PodmanError)) (h : w.faults = some e :: rest) :
    engRun image command pod_args w =
      (.error e, { w with events := w.events ++ [.engineRun image],
                          faults := rest }) := by
  simp [engRun, World.record, World.popFault, h]

/-! ### Derived behavior of `update_logs` -/

/-- The engine log lines a fault-free `update_logs` call reads, given the
stored watermark: all lines timestamped at or after watermark + 1 (all lines
when no watermark is stored). -/
def filterSince (lr : Option Nat) (logs : List LogEntry) : List LogEntry :=
  logs.filter (fun e => sinceOk (lr.map (fun t => t + 1)) e.ts)

/-- The log-sink write events produced by the forwarding loop of
`update_logs`: one unflushed, untimestamped write per line with a non-empty
payload. -/
def forwardEvents : List LogEntry → List Event
  | [] => []
  | e :: rest =>
      (if e.msg = "" then [] else [Event.logWrite e.msg false false])
        ++ forwardEvents rest

theorem forwardLines_spec (entries : List LogEntry) (w : World) :
    forwardLines entries w =
      { w with events := w.events ++ forwardEvents entries } := by
  induction entries generalizing w with
  | nil => simp [forwardLines, forwardEvents]
  | cons e rest ih =>
      by_cases h : e.msg = ""
      · simpa [forwardLines, forwardEvents, h] using ih w
      · have h2 := ih (handlerWrite e.msg false false w)
        simpa [forwardLines, forwardEvents, h, handlerWrite, World.record,
          List.append_assoc] using h2

/-- The world after a fault-free `update_logs` on an existing container:
three engine calls, the forwarded payloads, and — when at least one line was
read — a flush and a new watermark equal to the last read line's
timestamp. -/
def afterUpdateLogs (cid : String) (c : ContainerData) (w : World) : World :=
  { w with
    events := w.events ++ [.engineExists cid, .engineGet cid, .engineLogs cid]
      ++ forwardEvents (filterSince w.logReadAt c.logs)
      ++ (match (filterSince w.logReadAt c.logs).getLast? with
          | none => []
          | some _ => [Event.logFlush]),
    logReadAt :=
      match (filterSince w.logReadAt c.logs).getLast? with
      | none => w.logReadAt
      | some last => some last.ts }

theorem update_logs_nil (cid : String) (w : World) (c : ContainerData)
    (hf : w.faults = []) (hc : lookupKey cid w.engine.containers = some c) :
    update_logs cid w = (.ok (), afterUpdateLogs cid c w) := by
  cases hlr : w.logReadAt with
  | none =>
      simp [update_logs, afterUpdateLogs, engExists, engGet, engLogs,
        World.record, World.popFault, hf, hc, hlr, forwardLines_spec,
        filterSince, handlerFlush, setLogReadAt, List.append_assoc]
      split <;> simp_all [List.append_assoc]
  | some t =>
      simp [update_logs, afterUpdateLogs, engExists, engGet, engLogs,
        World.record, World.popFault, hf, hc, hlr, forwardLines_spec,
        filterSince, handlerFlush, setLogReadAt, List.append_assoc]
      split <;> simp_all [List.append_assoc]

theorem update_logs_nones (cid : String) (w : World) (c : ContainerData)
    (rest : List (Option PodmanError))
    (hf : w.faults = none :: none :: none :: rest)
    (hc : lookupKey cid w.engine.containers = some c) :
    update_logs cid w =
      (.ok (), { afterUpdateLogs cid c w with faults := rest }) := by
  cases hlr : w.logReadAt with
  | none =>
      simp [update_logs, afterUpdateLogs, engExists, engGet, engLogs,
        World.record, World.popFault, hf, hc, hlr, forwardLines_spec,
        filterSince, handlerFlush, setLogReadAt, List.append_assoc]
      split <;> simp_all [List.append_assoc]
  | some t =>
      simp [update_logs, afterUpdateLogs, engExists, engGet, engLogs,
        World.record, World.popFault, hf, hc, hlr, forwardLines_spec,
        filterSince, handlerFlush, setLogReadAt, List.append_assoc]
      split <;> simp_all [List.append_assoc]

/-! ### Derived behavior of `cleanup` -/

/-- The world after a fault-free `cleanup` of an existing container:
exists/get/stop, a full log update, exists/get/remove, and the final
cleaned-up line. -/
def afterCleanup (cid : String) (c : ContainerData) (w : World) : World :=
  let w1 : World := { w with
    engine := { w.engine with
      containers := setStatus cid "exited" w.engine.containers },
    events := w.events ++ [.engineExists cid, .engineGet cid, .engineStop cid] }
  let w2 := afterUpdateLogs cid { c with status := "exited" } w1
  { w2 with
    engine := { w2.engine with containers := eraseKey cid w2.engine.containers },
    events := w2.events ++ [.engineExists cid, .engineGet cid,
      .engineRemove cid,
      .logWrite ("Container " ++ cid ++ " is cleaned up.") true true] }

theorem cleanup_absent (cid : String) (w : World) (hf : w.faults = [])
    (hn : lookupKey cid w.engine.containers = none) :
    cleanup cid w =
      (.ok (), { w with events := w.events ++ [.engineExists cid] }) := by
  simp [cleanup, engExists, World.record, World.popFault, hf, hn]

theorem cleanup_nil (cid : String) (w : World) (c : ContainerData)
    (hf : w.faults = []) (hc : lookupKey cid w.engine.containers = some c) :
    cleanup cid w = (.ok (), afterCleanup cid c w) := by
  have hstep : lookupKey cid (setStatus cid "exited" w.engine.containers) =
      some { c with status := "exited" } := by
    rw [lookupKey_setStatus_self, hc]; rfl
  simp [cleanup, cleanupInternal, afterCleanup, afterUpdateLogs, engExists,
    engGet, engStop, engRemove, World.record, World.popFault, handlerWrite,
    hf, hc, hstep, update_logs_nil, lookupKey_eraseKey_self, filterSince,
    List.append_assoc]

theorem cleanup_fault_stop_notFound (cid : String) (w : World)
    (c : ContainerData)
    (hf : w.faults = [none, none, some PodmanError.notFound])
    (hc : lookupKey cid w.engine.containers = some c) :
    (cleanup cid w).1 = .ok () := by
  simp [cleanup, cleanupInternal, engExists, engGet, engStop, engRemove,
    World.record, World.popFault, handlerWrite, hf, hc, update_logs_nil,
    afterUpdateLogs, filterSince, List.append_assoc]

theorem cleanup_fault_remove_notFound (cid : String) (w : World)
    (c : ContainerData)
    (hf : w.faults = [none, none, none, none, none, none, none, none,
      some PodmanError.notFound])
    (hc : lookupKey cid w.engine.containers = some c) :
    (cleanup cid w).1 = .ok () := by
  have hstep : lookupKey cid (setStatus cid "exited" w.engine.containers) =
      some { c with status := "exited" } := by
    rw [lookupKey_setStatus_self, hc]; rfl
  simp [cleanup, cleanupInternal, engExists, engGet, engStop, engRemove,
    World.record, World.popFault, handlerWrite, hf, hc, hstep,
    update_logs_nones, afterUpdateLogs, filterSince, List.append_assoc]

theorem cleanup_fault_stop_api (cid : String) (w : World) (c : ContainerData)
    (m : String) (hf : w.faults = [none, none, some (PodmanError.apiError m)])
    (hc : lookupKey cid w.engine.containers = some c) :
    cleanup cid w =
      (.error (.containerCleanupError m),
       { w with
         events := w.events ++
             [.engineExists cid, .engineGet cid, .engineStop cid],
         faults := [] }) := by
  simp [cleanup, engExists, engGet, engStop, World.record, World.popFault,
    wrapAPI, PodmanError.isAPIError, PodmanError.str, hf, hc,
    List.append_assoc]

theorem cleanup_fault_remove_api (cid : String) (w : World)
    (c : ContainerData) (m : String)
    (hf : w.faults = [none, none, none, none, none, none, none, none,
      some (PodmanError.apiError m)])
    (hc : lookupKey cid w.engine.containers = some c) :
    (cleanup cid w).1 = .error (.containerCleanupError m) := by
  have hstep : lookupKey cid (setStatus cid "exited" w.engine.containers) =
      some { c with status := "exited" } := by
    rw [lookupKey_setStatus_self, hc]; rfl
  simp [cleanup, cleanupInternal, engExists, engGet, engStop, engRemove,
    World.record, World.popFault, wrapAPI, PodmanError.isAPIError,
    PodmanError.str, handlerWrite, hf, hc, hstep, update_logs_nones,
    afterUpdateLogs, filterSince, List.append_assoc]

theorem update_logs_fault_exists (cid : String) (w : World) (m : String)
    (hf : w.faults = [some (PodmanError.apiError m)]) :
    update_logs cid w =
      (.error (.containerUpdateLogsError m),
       { w with events := w.events ++ [.engineExists cid], faults := [] }) := by
  simp [update_logs, engExists, World.record, World.popFault, wrapAPI,
    PodmanError.isAPIError, PodmanError.str, hf]

/-! ### Derived behavior of `get_status` -/

theorem get_status_absent (cid : String) (w : World) (hf : w.faults = [])
    (hn : lookupKey cid w.engine.containers = none) :
    get_status cid w =
      (.error (.containerNotFoundError
          ("Container id " ++ cid ++ " not found")),
       { w with events := w.events ++ [.engineExists cid] }) := by
  simp [get_status, engExists, World.record, World.popFault, hf, hn]

theorem get_status_present (cid : String) (w : World) (c : ContainerData)
    (hf : w.faults = []) (hc : lookupKey cid w.engine.containers = some c) :
    (get_status cid w).2 =
      { w with events := w.events ++ [.engineExists cid, .engineGet cid] } := by
  simp [get_status, engExists, engGet, World.record, World.popFault, hf, hc]
  split_ifs <;> rfl

/-! ### Derived behavior of `start` -/

theorem set_auth_engine (w : World) :
    (set_auth_json_file w).engine = w.engine := by
  unfold set_auth_json_file; split <;> rfl

theorem set_auth_faults (w : World) :
    (set_auth_json_file w).faults = w.faults := by
  unfold set_auth_json_file; split <;> rfl

theorem set_auth_events (w : World) :
    (set_auth_json_file w).events = w.events := by
  unfold set_auth_json_file; split <;> rfl

theorem set_auth_logReadAt (w : World) :
    (set_auth_json_file w).logReadAt = w.logReadAt := by
  unfold set_auth_json_file; split <;> rfl

theorem set_auth_authFileData (w : World) :
    (set_auth_json_file w).authFileData = w.authFileData := by
  unfold set_auth_json_file; split <;> rfl

theorem set_auth_xdg (w : World) :
    (set_auth_json_file w).xdgRuntimeDir = w.xdgRuntimeDir := by
  unfold set_auth_json_file; split <;> rfl

theorem set_auth_dirExists (w : World) :
    (set_auth_json_file w).authDirExists = w.authDirExists := by
  unfold set_auth_json_file; split <;> rfl

/-- The world after a fault-free, credential-free `start` that skips the
pull (image already local, policy not Always). -/
def afterStartNoPull (request : ContainerRequest) (w : World) : World :=
  { set_auth_json_file w with
    engine := { w.engine with
      containers := w.engine.containers ++
        [("c" ++ toString w.engine.nextId, ⟨"running", 0, "", []⟩)],
      nextId := w.engine.nextId + 1 },
    events := w.events ++
      [.engineImageGet request.image_url,
       .logWrite "Starting Container" true true,
       .logWrite ("Container args " ++ toString request.command) true true,
       .engineRun request.image_url,
       .logWrite ("Container " ++ ("c" ++ toString w.engine.nextId) ++
         " is started.") true true] }

theorem start_nil_nopull (request : ContainerRequest) (w : World)
    (hne : request.image_url ≠ "") (hcred : request.credential = none)
    (hf : w.faults = []) (hpol : request.pull_policy ≠ "Always")
    (hloc : request.image_url ∈ w.engine.localImages) :
    start request w =
      (.ok ("c" ++ toString w.engine.nextId), afterStartNoPull request w) := by
  simp [start, afterStartNoPull, login, hcred, image_exists, engImageGet,
    engRun, World.record, World.popFault, handlerWrite, hne, hf, hpol, hloc,
    set_auth_engine, set_auth_faults, set_auth_events, set_auth_logReadAt,
    set_auth_authFileData, set_auth_xdg, set_auth_dirExists,
    List.append_assoc]

/-- The world after a fault-free, credential-free `start` with pull policy
Always and a registry image that pulls successfully. -/
def afterStartPullAlways (request : ContainerRequest) (w : World) : World :=
  { set_auth_json_file w with
    engine := { w.engine with
      localImages := request.image_url :: w.engine.localImages,
      containers := w.engine.containers ++
        [("c" ++ toString w.engine.nextId, ⟨"running", 0, "", []⟩)],
      nextId := w.engine.nextId + 1 },
    events := w.events ++
      [.logWrite ("Pulling image " ++ request.image_url) true true,
       .enginePull request.image_url,
       .logWrite "Starting Container" true true,
       .logWrite ("Container args " ++ toString request.command) true true,
       .engineRun request.image_url,
       .logWrite ("Container " ++ ("c" ++ toString w.engine.nextId) ++
         " is started.") true true] }

theorem start_nil_pull_always (request : ContainerRequest) (w : World)
    (iid : String) (hne : request.image_url ≠ "")
    (hcred : request.credential = none) (hf : w.faults = [])
    (hpol : request.pull_policy = "Always")
    (hreg : lookupKey request.image_url w.engine.registryImages = some iid)
    (hiid : iid ≠ "") :
    start request w =
      (.ok ("c" ++ toString w.engine.nextId),
       afterStartPullAlways request w) := by
  simp [start, afterStartPullAlways, login, hcred, pull_image, engPull,
    engRun, World.record, World.popFault, handlerWrite, hne, hf, hpol, hreg,
    hiid, set_auth_engine, set_auth_faults, set_auth_events,
    set_auth_logReadAt, set_auth_authFileData, set_auth_xdg,
    set_auth_dirExists, List.append_assoc]

/-- The world after a fault-free, credential-free `start` whose image is not
local (policy not Always) and pulls successfully. -/
def afterStartPullMissing (request : ContainerRequest) (w : World) : World :=
  { set_auth_json_file w with
    engine := { w.engine with
      localImages := request.image_url :: w.engine.localImages,
      containers := w.engine.containers ++
        [("c" ++ toString w.engine.nextId, ⟨"running", 0, "", []⟩)],
      nextId := w.engine.nextId + 1 },
    events := w.events ++
      [.engineImageGet request.image_url,
       .logWrite ("Pulling image " ++ request.image_url) true true,
       .enginePull request.image_url,
       .logWrite "Starting Container" true true,
       .logWrite ("Container args " ++ toString request.command) true true,
       .engineRun request.image_url,
       .logWrite ("Container " ++ ("c" ++ toString w.engine.nextId) ++
         " is started.") true true] }

theorem start_nil_pull_missing (request : ContainerRequest) (w : World)
    (iid : String) (hne : request.image_url ≠ "")
    (hcred : request.credential = none) (hf : w.faults = [])
    (hpol : request.pull_policy ≠ "Always")
    (hloc : request.image_url ∉ w.engine.localImages)
    (hreg : lookupKey request.image_url w.engine.registryImages = some iid)
    (hiid : iid ≠ "") :
    start request w =
      (.ok ("c" ++ toString w.engine.nextId),
       afterStartPullMissing request w) := by
  simp [start, afterStartPullMissing, login, hcred, image_exists, pull_image,
    engImageGet, engPull, engRun, World.record, World.popFault, handlerWrite,
    hne, hf, hpol, hloc, hreg, hiid, set_auth_engine, set_auth_faults,
    set_auth_events, set_auth_logReadAt, set_auth_authFileData, set_auth_xdg,
    set_auth_dirExists, List.append_assoc]

theorem start_login_fault (request : ContainerRequest) (w : World)
    (credential : Credential) (m : String) (hne : request.image_url ≠ "")
    (hcred : request.credential = some credential)
    (hf : w.faults = [some (PodmanError.apiError m)]) :
    start request w =
      (.error (.containerStartError m),
       { set_auth_json_file w with
         events := w.events ++ [.engineLogin (registryOf request.image_url)],
         faults := [] }) := by
  simp [start, login, hcred, engLogin, World.record, World.popFault, wrapAPI,
    PodmanError.isAPIError, PodmanError.str, hne, hf, set_auth_engine,
    set_auth_faults, set_auth_events, set_auth_logReadAt,
    set_auth_authFileData, set_auth_xdg, set_auth_dirExists,
    List.append_assoc]

theorem start_run_fault (request : ContainerRequest) (w : World) (m : String)
    (hne : request.image_url ≠ "") (hcred : request.credential = none)
    (hpol : request.pull_policy ≠ "Always")
    (hloc : request.image_url ∈ w.engine.localImages)
    (hf : w.faults = [none, some (PodmanError.apiError m)]) :
    start request w =
      (.error (.containerStartError ("Container Start Error: " ++ m)),
       { set_auth_json_file w with
         events := w.events ++
           [.engineImageGet request.image_url,
            .logWrite "Starting Container" true true,
            .logWrite ("Container args " ++ toString request.command)
              true true,
            .engineRun request.image_url,
            .logWrite ("Container Start Error: " ++ m) true true],
         faults := [] }) := by
  simp [start, startWrap, login, hcred, image_exists, engImageGet, engRun,
    World.record, World.popFault, handlerWrite, PodmanError.str, hne, hf,
    hpol, hloc, set_auth_engine, set_auth_faults, set_auth_events,
    set_auth_logReadAt, set_auth_authFileData, set_auth_xdg,
    set_auth_dirExists, List.append_assoc]

/-! ### Event classifiers and counters -/

/-- Whether an event is an image pull call. -/
def isPullEvent : Event → Bool
  | .enginePull _ => true
  | _ => false

/-- Whether an event is a container run call. -/
def isRunEvent : Event → Bool
  | .engineRun _ => true
  | _ => false

/-- Whether an event is a write to the log sink. -/
def isLogWriteEvent : Event → Bool
  | .logWrite _ _ _ => true
  | _ => false

/-- Number of image pull calls in a trace. -/
def pullCount (events : List Event) : Nat :=
  (events.filter isPullEvent).length

/-- Number of container run calls in a trace. -/
def runCount (events : List Event) : Nat :=
  (events.filter isRunEvent).length

/-! ### Concrete sample data for witnesses -/

/-- A sample engine log: one line with a payload, then one line whose payload
is empty (a bare timestamp after `strip()`). -/
def sampleLogs : List LogEntry := [⟨11, "hello"⟩, ⟨12, ""⟩]

/-- A sample running container. -/
def sampleContainer : ContainerData := ⟨"running", 0, "", sampleLogs⟩

/-- A sample world with one container, one local image and one registry
image. -/
def sampleWorld : World :=
  { engine := { containers := [("c1", sampleContainer)],
                localImages := ["registry.example/app:1"],
                registryImages := [("registry.example/app:1", "sha256:abc")],
                nextId := 7 },
    logReadAt := some 10,
    authFile := some "/run/user/1000/containers/auth.json",
    xdgRuntimeDir := "/run/user/1000",
    authDirExists := true,
    authFileData := some [("other.example", ⟨"b2xk"⟩)],
    faults := [],
    events := [] }

/-- A sample container request. -/
def sampleRequest : ContainerRequest :=
  { name := "activation-1",
    image_url := "registry.example/app:1",
    command := ["ansible-rulebook"],
    credential := none,
    ports := [(8080, 9090)],
    mem_limit := "",
    mounts := [],
    env_vars := [],
    extra_args := [],
    pull_policy := "IfNotPresent" }

/-! ### Claim theorems -/

/-- C5: for every request whose image reference is empty, `start` raises
`ContainerStartError` with the message "Missing image url" and the world is
returned untouched: no engine call is made and no auth-file resolution,
login, image lookup, pull or run happens before the failure. -/
theorem start_missing_image_url (request : ContainerRequest) (w : World)
    (h : request.image_url = "") :
    start request w =
      (.error (.containerStartError "Missing image url"), w) := by
  simp [start, h]

/-- Witness for C5 at a concrete empty-image request. -/
theorem start_missing_image_url_witness :
    start { sampleRequest with image_url := "" } sampleWorld =
      (.error (.containerStartError "Missing image url"), sampleWorld) :=
  start_missing_image_url { sampleRequest with image_url := "" } sampleWorld
    rfl

/-- C10 counterexample: the host-port component (the second element of each
`(container-port, host-port)` pair) is not ignored by `_get_ports`: with the
container port fixed at 8080, changing only the host port changes the
resulting engine port map, and the pair (8080, 9090) produces the mapping
"9090/tcp" to 9090, not "8080/tcp" to 8080. -/
theorem get_ports_cex :
    get_ports [(8080, 9090)] = [("9090/tcp", 9090)] ∧
    get_ports [(8080, 1234)] = [("1234/tcp", 1234)] ∧
    get_ports [(8080, 9090)] ≠ get_ports [(8080, 1234)] := by
  refine ⟨rfl, rfl, ?_⟩
  decide

/-- C10 (amended): `_get_ports` ignores the container-port component (the
first element) of every pair; each pair contributes the mapping
"port/tcp" to port built from the pair's second element (the host port)
only, so a request asking to map a container port to a different host port
is published on the host port for both sides instead; `_load_pod_args`
passes this map as the "ports" start parameter whenever the request's port
list is non-empty and no extra argument overrides the "ports" key. -/
theorem get_ports_spec :
    (∀ ps qs : List (Nat × Nat), ps.map Prod.snd = qs.map Prod.snd →
      get_ports ps = get_ports qs) ∧
    (∀ (ps : List (Nat × Nat)) (kv : String × Nat), kv ∈ get_ports ps →
      ∃ v, kv = (toString v ++ "/tcp", v) ∧ v ∈ ps.map Prod.snd) ∧
    (∀ request : ContainerRequest, request.ports ≠ [] →
      (∀ kv ∈ request.extra_args, kv.1 ≠ "ports") →
      lookupKey "ports" (load_pod_args request) =
        some (.portsMap (get_ports request.ports))) := by
  have hEq : ∀ ps : List (Nat × Nat), get_ports ps =
      (ps.map Prod.snd).foldl
        (fun d v => dictInsert (toString v ++ "/tcp") v d) [] := by
    intro ps
    rw [get_ports, List.foldl_map]
  have hMem : ∀ (l : List Nat) (acc : List (String × Nat)) (kv : String × Nat),
      kv ∈ l.foldl (fun d v => dictInsert (toString v ++ "/tcp") v d) acc →
      (∃ v, kv = (toString v ++ "/tcp", v) ∧ v ∈ l) ∨ kv ∈ acc := by
    intro l
    induction l with
    | nil => intro acc kv h; exact Or.inr h
    | cons v rest ih =>
        intro acc kv h
        rcases ih _ kv h with h2 | h2
        · obtain ⟨v', hv1, hv2⟩ := h2
          exact Or.inl ⟨v', hv1, List.mem_cons_of_mem _ hv2⟩
        · rcases mem_dictInsert kv _ _ _ h2 with h3 | h3
          · exact Or.inl ⟨v, h3, List.mem_cons_self _ _⟩
          · exact Or.inr h3
  refine ⟨?_, ?_, ?_⟩
  · intro ps qs h
    rw [hEq, hEq, h]
  · intro ps kv h
    rw [hEq] at h
    rcases hMem _ _ kv h with h2 | h2
    · obtain ⟨v, hv1, hv2⟩ := h2
      exact ⟨v, hv1, hv2⟩
    · simp at h2
  · intro request hp hextra
    simp only [load_pod_args]
    rw [if_neg hp, lookupKey_foldl_dictInsert _ _ _ hextra]
    have h1 : ("mem_limit" : String) ≠ "ports" := by decide
    have h2 : ("mounts" : String) ≠ "ports" := by decide
    have h3 : ("environment" : String) ≠ "ports" := by decide
    by_cases hm : request.mem_limit = "" <;>
      by_cases hmo : request.mounts = [] <;>
        by_cases he : request.env_vars = [] <;>
          simp [hm, hmo, he, lookupKey_dictInsert_ne _ _ _ _ h1,
            lookupKey_dictInsert_ne _ _ _ _ h2,
            lookupKey_dictInsert_ne _ _ _ _ h3, lookupKey_dictInsert_self]

/-- Witness for C10's amended theorem at a concrete request with a port
pair whose two components differ. -/
theorem get_ports_spec_witness :
    lookupKey "ports" (load_pod_args sampleRequest) =
      some (.portsMap (get_ports [(8080, 9090)])) :=
  get_ports_spec.2.2 sampleRequest (by decide)
    (fun kv h => absurd h (by simp [sampleRequest]))

/-- C1: for a fault-free engine and an existing container whose state is
"exited" or "stopped", `get_status` returns COMPLETED with the pod-completed
message when the exit code is 0 (regardless of any error text), and FAILED
otherwise — with the engine's error text when it is non-empty, else with the
generic failure message, which contains the container id and the exit
code. -/
theorem get_status_exited_spec (cid : String) (w : World) (c : ContainerData)
    (hf : w.faults = []) (hc : lookupKey cid w.engine.containers = some c)
    (hs : c.status = "exited" ∨ c.status = "stopped") :
    (c.exitCode = 0 →
      (get_status cid w).1 = .ok ⟨.completed, POD_COMPLETED cid⟩) ∧
    (c.exitCode ≠ 0 → c.errorMsg ≠ "" →
      (get_status cid w).1 = .ok ⟨.failed, c.errorMsg⟩) ∧
    (c.exitCode ≠ 0 → c.errorMsg = "" →
      (get_status cid w).1 =
        .ok ⟨.failed, POD_GENERIC_FAIL cid c.exitCode⟩ ∧
      (∃ a b, POD_GENERIC_FAIL cid c.exitCode = a ++ cid ++ b) ∧
      (∃ a b, POD_GENERIC_FAIL cid c.exitCode =
        a ++ toString c.exitCode ++ b)) := by
  have hmem : c.status ∈ ["exited", "stopped"] := by
    rcases hs with h | h <;> simp [h]
  refine ⟨?_, ?_, ?_⟩
  · intro h0
    simp [get_status, engExists, engGet, World.record, World.popFault, hf,
      hc, hmem, h0]
  · intro h0 hm
    simp [get_status, engExists, engGet, World.record, World.popFault, hf,
      hc, hmem, h0, hm]
  · intro h0 hm
    refine ⟨?_, ?_, ?_⟩
    · simp [get_status, engExists, engGet, World.record, World.popFault, hf,
        hc, hmem, h0, hm]
    · exact ⟨"Pod ", " failed with exit code " ++ toString c.exitCode,
        by simp [POD_GENERIC_FAIL, String.append_assoc]⟩
    · exact ⟨"Pod " ++ cid ++ " failed with exit code ", "",
        by simp [POD_GENERIC_FAIL, String.append_assoc]⟩

/-- Witness for C1: a concrete exited container with exit code 2 and no
error text yields FAILED with the generic message. -/
theorem get_status_exited_witness :
    (get_status "c1"
      { sampleWorld with engine := { sampleWorld.engine with
          containers := [("c1", ⟨"exited", 2, "", []⟩)] } }).1 =
        .ok ⟨.failed, POD_GENERIC_FAIL "c1" 2⟩ :=
  ((get_status_exited_spec "c1"
      { sampleWorld with engine := { sampleWorld.engine with
          containers := [("c1", ⟨"exited", 2, "", []⟩)] } }
      ⟨"exited", 2, "", []⟩ rfl (by decide) (Or.inl rfl)).2.2
    (by decide) rfl).1

/-- C3: for a fault-free engine and an existing container whose
engine-reported state is outside the recognized set, `get_status` returns
(rather than raises) a status of ERROR, whose message names the
unrecognized state. -/
theorem get_status_unexpected_spec (cid : String) (w : World)
    (c : ContainerData) (hf : w.faults = [])
    (hc : lookupKey cid w.engine.containers = some c)
    (hs : c.status ∉ ["exited", "stopped", "running", "stopping", "created",
      "paused", "restarting", "removing", "dead", "configured", "unknown"]) :
    (get_status cid w).1 = .ok ⟨.error, POD_UNEXPECTED cid c.status⟩ ∧
    ∃ a b, POD_UNEXPECTED cid c.status = a ++ c.status ++ b := by
  simp only [List.mem_cons, List.not_mem_nil, or_false, not_or] at hs
  constructor
  · simp [get_status, engExists, engGet, World.record, World.popFault, hf,
      hc, hs]
  · exact ⟨"Pod " ++ cid ++ " is in unexpected state ", "",
      by simp [POD_UNEXPECTED, String.append_assoc]⟩

/-- Witness for C3 at the concrete undocumented state "stopping2". -/
theorem get_status_unexpected_witness :
    (get_status "c1"
      { sampleWorld with engine := { sampleWorld.engine with
          containers := [("c1", ⟨"stopping2", 0, "", []⟩)] } }).1 =
        .ok ⟨.error, POD_UNEXPECTED "c1" "stopping2"⟩ :=
  (get_status_unexpected_spec "c1"
      { sampleWorld with engine := { sampleWorld.engine with
          containers := [("c1", ⟨"stopping2", 0, "", []⟩)] } }
      ⟨"stopping2", 0, "", []⟩ rfl (by decide) (by decide)).1

/-- C9: when an auth-file path is set and the file already holds an auths
map, writing a credential for the registry of the given image reference
produces a map that holds the base64(user:secret) entry for that registry,
and leaves the entry of every other registry untouched (the write merges
rather than overwrites). -/
theorem write_auth_json_merges (credential : Credential) (image_url : String)
    (w : World) (path : String) (d : List (String × AuthEntry))
    (hfile : w.authFile = some path) (hdata : w.authFileData = some d) :
    ∃ d', (write_auth_json credential image_url w).authFileData = some d' ∧
      lookupKey (registryOf image_url) d' =
        some (create_auth_key credential) ∧
      create_auth_key credential =
        ⟨b64encode ((credential.username ++ ":" ++
          credential.secret).toList.map Char.toNat)⟩ ∧
      (∀ r, r ≠ registryOf image_url → lookupKey r d' = lookupKey r d) := by
  refine ⟨dictInsert (registryOf image_url) (create_auth_key credential) d,
    ?_, lookupKey_dictInsert_self _ _ _, rfl, ?_⟩
  · simp [write_auth_json, hfile, hdata]
  · intro r hr
    exact lookupKey_dictInsert_ne _ _ _ _ (Ne.symm hr)

/-- Witness for C9 at a concrete credential and world whose auth file
already records another registry. -/
theorem write_auth_json_merges_witness :
    ∃ d', (write_auth_json ⟨"user", "pass"⟩ "registry.example/app:1"
        sampleWorld).authFileData = some d' ∧
      lookupKey (registryOf "registry.example/app:1") d' =
        some (create_auth_key ⟨"user", "pass"⟩) ∧
      create_auth_key ⟨"user", "pass"⟩ =
        ⟨b64encode ((("user" : String) ++ ":" ++
          "pass").toList.map Char.toNat)⟩ ∧
      (∀ r, r ≠ registryOf "registry.example/app:1" →
        lookupKey r d' = lookupKey r [("other.example", ⟨"b2xk"⟩)]) :=
  write_auth_json_merges ⟨"user", "pass"⟩ "registry.example/app:1"
    sampleWorld "/run/user/1000/containers/auth.json"
    [("other.example", ⟨"b2xk"⟩)] rfl rfl

/-- C7: `_pull_image` raises `ContainerImagePullError` both when the engine
reports the image as not found and when the pull returns an image record
with no resolvable id, writing a human-readable line to the log sink before
raising in both cases; any other engine-level failure is raised as
`ContainerStartError`, with no additional line after the pull call. -/
theorem pull_image_error_paths (request : ContainerRequest) (w : World)
    (m : String) :
    (w.faults = [] →
      lookupKey request.image_url w.engine.registryImages = none →
      (pull_image request w).1 = .error (.containerImagePullError
        ("Image " ++ request.image_url ++ " not found")) ∧
      (pull_image request w).2.events = w.events ++
        [.logWrite ("Pulling image " ++ request.image_url) true true,
         .enginePull request.image_url,
         .logWrite ("Image " ++ request.image_url ++ " not found")
           true true]) ∧
    (w.faults = [] →
      lookupKey request.image_url w.engine.registryImages = some "" →
      (pull_image request w).1 = .error (.containerImagePullError
        (IMAGE_PULL_ERROR request.image_url)) ∧
      (pull_image request w).2.events = w.events ++
        [.logWrite ("Pulling image " ++ request.image_url) true true,
         .enginePull request.image_url,
         .logWrite (IMAGE_PULL_ERROR request.image_url) true true]) ∧
    (w.faults = [some (PodmanError.apiError m)] →
      (pull_image request w).1 = .error (.containerStartError m) ∧
      (pull_image request w).2.events = w.events ++
        [.logWrite ("Pulling image " ++ request.image_url) true true,
         .enginePull request.image_url]) := by
  refine ⟨?_, ?_, ?_⟩
  · intro hf hreg'
    cases hcr : request.credential with
    | none =>
        simp [pull_image, handlerWrite, World.record, engPull,
          World.popFault, hcr, hf, hreg', List.append_assoc]
    | some credential =>
        cases hau : w.authFile with
        | none =>
            simp [pull_image, write_auth_json, handlerWrite, World.record,
              engPull, World.popFault, hcr, hau, hf, hreg', List.append_assoc]
        | some p =>
            simp [pull_image, write_auth_json, handlerWrite, World.record,
              engPull, World.popFault, hcr, hau, hf, hreg', List.append_assoc]
  · intro hf hreg'
    cases hcr : request.credential with
    | none =>
        simp [pull_image, handlerWrite, World.record, engPull,
          World.popFault, hcr, hf, hreg', List.append_assoc]
    | some credential =>
        cases hau : w.authFile with
        | none =>
            simp [pull_image, write_auth_json, handlerWrite, World.record,
              engPull, World.popFault, hcr, hau, hf, hreg', List.append_assoc]
        | some p =>
            simp [pull_image, write_auth_json, handlerWrite, World.record,
              engPull, World.popFault, hcr, hau, hf, hreg', List.append_assoc]
  · intro hf
    cases hcr : request.credential with
    | none =>
        simp [pull_image, handlerWrite, World.record, engPull,
          World.popFault, wrapAPI, PodmanError.isAPIError, PodmanError.str,
          hcr, hf, List.append_assoc]
    | some credential =>
        cases hau : w.authFile with
        | none =>
            simp [pull_image, write_auth_json, handlerWrite, World.record,
              engPull, World.popFault, wrapAPI, PodmanError.isAPIError,
              PodmanError.str, hcr, hau, hf, List.append_assoc]
        | some p =>
            simp [pull_image, write_auth_json, handlerWrite, World.record,
              engPull, World.popFault, wrapAPI, PodmanError.isAPIError,
              PodmanError.str, hcr, hau, hf, List.append_assoc]

/-- Witness for C7: pulling an image that the registry does not have fails
with `ContainerImagePullError` after writing the not-found line. -/
theorem pull_image_error_paths_witness :
    (pull_image { sampleRequest with image_url := "registry.example/gone" }
      sampleWorld).1 = .error (.containerImagePullError
        ("Image " ++ "registry.example/gone" ++ " not found")) ∧
    (pull_image { sampleRequest with image_url := "registry.example/gone" }
      sampleWorld).2.events = sampleWorld.events ++
        [.logWrite ("Pulling image " ++ "registry.example/gone") true true,
         .enginePull "registry.example/gone",
         .logWrite ("Image " ++ "registry.example/gone" ++ " not found")
           true true] :=
  (pull_image_error_paths
      { sampleRequest with image_url := "registry.example/gone" }
      sampleWorld "unused").1 rfl (by decide)

/-- Helper: a counter-generated container id is never empty. -/
theorem freshId_ne_empty (n : Nat) : ("c" ++ toString n) ≠ "" := by
  intro h
  have h2 := congrArg String.length h
  simp [String.length_append] at h2
  exact absurd h2.1 (by decide)

/-- C6: under a fault-free engine with the requested image available in the
registry, a credential-free `start` performs the image pull exactly when the
pull policy is "Always" or the image is not already present locally (the
presence check being a lookup, not a pull); in particular with policy
"IfNotPresent" and a locally present image it performs no pull, performs
exactly one run, and returns a non-empty container id. -/
theorem start_pull_decision_spec (request : ContainerRequest) (w : World)
    (iid : String) (hne : request.image_url ≠ "")
    (hcred : request.credential = none) (hf : w.faults = [])
    (hreg : lookupKey request.image_url w.engine.registryImages = some iid)
    (hiid : iid ≠ "") :
    (pullCount (start request w).2.events =
      pullCount w.events +
        (if request.pull_policy = "Always" ∨
            request.image_url ∉ w.engine.localImages then 1 else 0)) ∧
    (request.pull_policy = "IfNotPresent" →
      request.image_url ∈ w.engine.localImages →
      (start request w).1 = .ok ("c" ++ toString w.engine.nextId) ∧
      ("c" ++ toString w.engine.nextId) ≠ "" ∧
      pullCount (start request w).2.events = pullCount w.events ∧
      runCount (start request w).2.events = runCount w.events + 1) := by
  constructor
  · by_cases hpol : request.pull_policy = "Always"
    · rw [start_nil_pull_always request w iid hne hcred hf hpol hreg hiid]
      simp [afterStartPullAlways, pullCount, isPullEvent, set_auth_events,
        List.filter_append, hpol]
    · by_cases hloc : request.image_url ∈ w.engine.localImages
      · rw [start_nil_nopull request w hne hcred hf hpol hloc]
        simp [afterStartNoPull, pullCount, isPullEvent, set_auth_events,
          List.filter_append, hpol, hloc]
      · rw [start_nil_pull_missing request w iid hne hcred hf hpol hloc hreg
          hiid]
        simp [afterStartPullMissing, pullCount, isPullEvent, set_auth_events,
          List.filter_append, hpol, hloc]
  · intro hp hloc
    have hpol : request.pull_policy ≠ "Always" := by
      rw [hp]; decide
    rw [start_nil_nopull request w hne hcred hf hpol hloc]
    refine ⟨rfl, freshId_ne_empty _, ?_, ?_⟩
    · simp [afterStartNoPull, pullCount, isPullEvent, set_auth_events,
        List.filter_append]
    · simp [afterStartNoPull, runCount, isRunEvent, set_auth_events,
        List.filter_append]

/-- Witness for C6: the sample request (policy "IfNotPresent", image already
local) starts without pulling and returns the non-empty id "c7". -/
theorem start_pull_decision_witness :
    (start sampleRequest sampleWorld).1 = .ok ("c" ++ toString 7) ∧
    ("c" ++ toString 7) ≠ "" ∧
    pullCount (start sampleRequest sampleWorld).2.events =
      pullCount sampleWorld.events ∧
    runCount (start sampleRequest sampleWorld).2.events =
      runCount sampleWorld.events + 1 :=
  (start_pull_decision_spec sampleRequest sampleWorld "sha256:abc"
    (by decide) rfl rfl (by decide) (by decide)).2 rfl (by decide)

/-- C2 counterexample: on a container whose log ends in a line with an empty
payload (a bare timestamp), `update_logs` stores as the new watermark the
timestamp of the last line read (12), not the timestamp of the last
forwarded line (11, the only line whose payload was written to the sink), so
the stored watermark differs from the timestamp of the last forwarded
line. -/
theorem update_logs_watermark_cex :
    (update_logs "c1" sampleWorld).1 = .ok () ∧
    filterSince sampleWorld.logReadAt sampleContainer.logs =
      [⟨11, "hello"⟩, ⟨12, ""⟩] ∧
    ((filterSince sampleWorld.logReadAt sampleContainer.logs).filter
        (fun e => !decide (e.msg = ""))).getLast? = some ⟨11, "hello"⟩ ∧
    forwardEvents (filterSince sampleWorld.logReadAt sampleContainer.logs) =
      [.logWrite "hello" false false] ∧
    (update_logs "c1" sampleWorld).2.logReadAt = some 12 ∧
    (update_logs "c1" sampleWorld).2.logReadAt ≠ some 11 := by
  refine ⟨rfl, rfl, rfl, rfl, rfl, by decide⟩

/-- C2 (amended): for a fault-free engine, an existing container and a
stored watermark T, `update_logs` succeeds, requests and forwards only lines
timestamped at or after T+1, appends exactly the engine calls, the forwarded
non-empty payloads and (when at least one line was read) a flush; the stored
watermark becomes the timestamp of the last line READ (which need not have
been forwarded if its payload was empty), never decreases, and is left
unchanged when the engine returns no new lines. -/
theorem update_logs_watermark_spec (cid : String) (w : World)
    (c : ContainerData) (T : Nat) (hf : w.faults = [])
    (hc : lookupKey cid w.engine.containers = some c)
    (hT : w.logReadAt = some T) :
    (update_logs cid w).1 = .ok () ∧
    (∀ e ∈ filterSince (some T) c.logs, T + 1 ≤ e.ts) ∧
    (update_logs cid w).2.events = w.events ++
      [.engineExists cid, .engineGet cid, .engineLogs cid] ++
      forwardEvents (filterSince (some T) c.logs) ++
      (match (filterSince (some T) c.logs).getLast? with
       | none => []
       | some _ => [Event.logFlush]) ∧
    (update_logs cid w).2.logReadAt =
      (match (filterSince (some T) c.logs).getLast? with
       | none => some T
       | some last => some last.ts) ∧
    (∀ t, (update_logs cid w).2.logReadAt = some t → T ≤ t) ∧
    ((∀ e ∈ c.logs, e.ts ≤ T) →
      (update_logs cid w).2.logReadAt = some T) := by
  have h2 : ∀ e ∈ filterSince (some T) c.logs, T + 1 ≤ e.ts := by
    intro e he
    simp [filterSince, sinceOk] at he
    exact he.2
  rw [update_logs_nil cid w c hf hc]
  refine ⟨rfl, h2, ?_, ?_, ?_, ?_⟩
  · simp only [afterUpdateLogs, hT]
  · simp only [afterUpdateLogs, hT]
  · intro t ht
    simp only [afterUpdateLogs, hT] at ht
    rcases hG : (filterSince (some T) c.logs).getLast? with _ | last
    · rw [hG] at ht
      simp at ht
      omega
    · rw [hG] at ht
      simp at ht
      have h3 := h2 last (List.mem_of_mem_getLast? hG)
      omega
  · intro hall
    have hnil : filterSince (some T) c.logs = [] := by
      rw [filterSince]
      refine List.filter_eq_nil_iff.mpr ?_
      intro e he
      have h4 := hall e he
      simp [sinceOk]
      omega
    simp only [afterUpdateLogs, hT, hnil]
    simp

/-- Witness for C2's amended theorem at the sample world (watermark 10,
lines at 11 and 12, the last one with an empty payload). -/
theorem update_logs_watermark_spec_witness :
    (update_logs "c1" sampleWorld).1 = .ok () ∧
    (update_logs "c1" sampleWorld).2.logReadAt =
      (match (filterSince (some 10) sampleContainer.logs).getLast? with
       | none => some 10
       | some last => some last.ts) :=
  ⟨(update_logs_watermark_spec "c1" sampleWorld sampleContainer 10 rfl
      (by decide) rfl).1,
   (update_logs_watermark_spec "c1" sampleWorld sampleContainer 10 rfl
      (by decide) rfl).2.2.2.1⟩

/-- Helper: `cleanup` leaves the fault queue as it found it when the queue
is empty. -/
theorem afterCleanup_faults (cid : String) (c : ContainerData) (w : World) :
    (afterCleanup cid c w).faults = w.faults := by
  simp [afterCleanup, afterUpdateLogs]

/-- Helper: a fault-free `cleanup` erases the container from the engine. -/
theorem afterCleanup_containers (cid : String) (c : ContainerData)
    (w : World) :
    (afterCleanup cid c w).engine.containers =
      eraseKey cid (setStatus cid "exited" w.engine.containers) := by
  simp [afterCleanup, afterUpdateLogs]

/-- C4: `cleanup` is idempotent.  Fault-free, a second `cleanup` of the same
id right after a first one succeeds and only performs the existence check —
no second stop or removal, no engine change, no sink write; `cleanup` of an
id the engine no longer has is a benign no-op; a NotFound fault during the
stop or during the removal is suppressed; an API failure (other than
not-found) during stop or removal raises `ContainerCleanupError`. -/
theorem cleanup_idempotent_spec (cid : String) (w : World)
    (c : ContainerData) (m : String) :
    (w.faults = [] → lookupKey cid w.engine.containers = some c →
      (cleanup cid w).1 = .ok () ∧
      cleanup cid (cleanup cid w).2 =
        (.ok (), { (cleanup cid w).2 with
          events := (cleanup cid w).2.events ++ [.engineExists cid] })) ∧
    (w.faults = [] → lookupKey cid w.engine.containers = none →
      cleanup cid w =
        (.ok (), { w with events := w.events ++ [.engineExists cid] })) ∧
    (w.faults = [none, none, some PodmanError.notFound] →
      lookupKey cid w.engine.containers = some c →
      (cleanup cid w).1 = .ok ()) ∧
    (w.faults = [none, none, none, none, none, none, none, none,
        some PodmanError.notFound] →
      lookupKey cid w.engine.containers = some c →
      (cleanup cid w).1 = .ok ()) ∧
    (w.faults = [none, none, some (PodmanError.apiError m)] →
      lookupKey cid w.engine.containers = some c →
      (cleanup cid w).1 = .error (.containerCleanupError m)) ∧
    (w.faults = [none, none, none, none, none, none, none, none,
        some (PodmanError.apiError m)] →
      lookupKey cid w.engine.containers = some c →
      (cleanup cid w).1 = .error (.containerCleanupError m)) := by
  refine ⟨?_, ?_, ?_, ?_, ?_, ?_⟩
  · intro hf hc
    rw [cleanup_nil cid w c hf hc]
    refine ⟨rfl, ?_⟩
    have hf2 : (afterCleanup cid c w).faults = [] := by
      rw [afterCleanup_faults, hf]
    have hn2 : lookupKey cid (afterCleanup cid c w).engine.containers =
        none := by
      rw [afterCleanup_containers]
      exact lookupKey_eraseKey_self _ _
    simpa using cleanup_absent cid (afterCleanup cid c w) hf2 hn2
  · intro hf hn
    exact cleanup_absent cid w hf hn
  · intro hf hc
    exact cleanup_fault_stop_notFound cid w c hf hc
  · intro hf hc
    exact cleanup_fault_remove_notFound cid w c hf hc
  · intro hf hc
    rw [cleanup_fault_stop_api cid w c m hf hc]
  · intro hf hc
    exact cleanup_fault_remove_api cid w c m hf hc

/-- Witness for C4: double cleanup of the sample container succeeds; the
second call only checks existence. -/
theorem cleanup_idempotent_witness :
    (cleanup "c1" sampleWorld).1 = .ok () ∧
    cleanup "c1" (cleanup "c1" sampleWorld).2 =
      (.ok (), { (cleanup "c1" sampleWorld).2 with
        events := (cleanup "c1" sampleWorld).2.events ++
          [.engineExists "c1"] }) :=
  (cleanup_idempotent_spec "c1" sampleWorld sampleContainer "e").1 rfl
    (by decide)

/-- C8 counterexample: `get_status` on a stale container id raises
`ContainerNotFoundError` with no line whatsoever written to the log sink
(the operation does not even receive a log handler), so not every raised
error is preceded by a log-sink line. -/
theorem error_log_line_cex :
    (get_status "ghost" sampleWorld).1 =
      .error (.containerNotFoundError "Container id ghost not found") ∧
    (get_status "ghost" sampleWorld).2.events.filter isLogWriteEvent =
      [] := by
  exact ⟨rfl, rfl⟩

/-- C8 (amended): the engine errors caught by `start`'s engine-error handler
are preceded by a descriptive sink line before `ContainerStartError` is
raised (and the `ImagePullError` paths also write a line first), but the
other error paths write nothing to the sink before raising:
`ContainerNotFoundError` from `get_status`, `ContainerUpdateLogsError` from
`update_logs`, `ContainerCleanupError` from `cleanup`, and the
`ContainerStartError` raised by the login step all propagate with no sink
line describing the failure. -/
theorem error_log_line_spec (cid : String) (request : ContainerRequest)
    (w : World) (credential : Credential) (c : ContainerData) (m : String) :
    (request.image_url ≠ "" → request.credential = none →
      request.pull_policy ≠ "Always" →
      request.image_url ∈ w.engine.localImages →
      w.faults = [none, some (PodmanError.apiError m)] →
      (start request w).1 =
        .error (.containerStartError ("Container Start Error: " ++ m)) ∧
      (start request w).2.events = w.events ++
        [.engineImageGet request.image_url,
         .logWrite "Starting Container" true true,
         .logWrite ("Container args " ++ toString request.command) true true,
         .engineRun request.image_url,
         .logWrite ("Container Start Error: " ++ m) true true]) ∧
    (w.faults = [] → lookupKey cid w.engine.containers = none →
      (get_status cid w).1 = .error (.containerNotFoundError
        ("Container id " ++ cid ++ " not found")) ∧
      (get_status cid w).2.events.filter isLogWriteEvent =
        w.events.filter isLogWriteEvent) ∧
    (w.faults = [some (PodmanError.apiError m)] →
      (update_logs cid w).1 = .error (.containerUpdateLogsError m) ∧
      (update_logs cid w).2.events.filter isLogWriteEvent =
        w.events.filter isLogWriteEvent) ∧
    (w.faults = [none, none, some (PodmanError.apiError m)] →
      lookupKey cid w.engine.containers = some c →
      (cleanup cid w).1 = .error (.containerCleanupError m) ∧
      (cleanup cid w).2.events.filter isLogWriteEvent =
        w.events.filter isLogWriteEvent) ∧
    (request.image_url ≠ "" → request.credential = some credential →
      w.faults = [some (PodmanError.apiError m)] →
      (start request w).1 = .error (.containerStartError m) ∧
      (start request w).2.events.filter isLogWriteEvent =
        w.events.filter isLogWriteEvent) := by
  refine ⟨?_, ?_, ?_, ?_, ?_⟩
  · intro hne hcred hpol hloc hfq
    rw [start_run_fault request w m hne hcred hpol hloc hfq]
    exact ⟨rfl, rfl⟩
  · intro hf hn
    rw [get_status_absent cid w hf hn]
    exact ⟨rfl, by simp [isLogWriteEvent, List.filter_append]⟩
  · intro hf
    rw [update_logs_fault_exists cid w m hf]
    exact ⟨rfl, by simp [isLogWriteEvent, List.filter_append]⟩
  · intro hf hc
    rw [cleanup_fault_stop_api cid w c m hf hc]
    exact ⟨rfl, by simp [isLogWriteEvent, List.filter_append]⟩
  · intro hne hcred hf
    rw [start_login_fault request w credential m hne hcred hf]
    exact ⟨rfl, by simp [isLogWriteEvent, List.filter_append]⟩

/-- Witness for C8's amended theorem: an API failure during `update_logs`
raises `ContainerUpdateLogsError` with no sink line added. -/
theorem error_log_line_witness :
    (update_logs "c1"
      { sampleWorld with
        faults := [some (PodmanError.apiError "boom")] }).1 =
      .error (.containerUpdateLogsError "boom") ∧
    (update_logs "c1"
      { sampleWorld with
        faults := [some (PodmanError.apiError "boom")] }).2.events.filter
      isLogWriteEvent =
      ({ sampleWorld with
        faults := [some (PodmanError.apiError "boom")] } :
          World).events.filter isLogWriteEvent :=
  (error_log_line_spec "c1" sampleRequest
    { sampleWorld with faults := [some (PodmanError.apiError "boom")] }
    ⟨"user", "pass"⟩ sampleContainer "boom").2.2.1 rfl

end Podman
